import Mathlib

/-
Formal model of the recurring-transaction detector
(src/services/recurring_detector.py) of the finance_app repository,
together with theorems checking the specified properties of that module.

Modelling conventions:
  - Python floats are modelled as exact numbers: rational arithmetic for the
    values themselves and real numbers wherever a square root is taken
    (std_dev = variance ** 0.5 in the source).
  - Calendar dates are modelled as proleptic Gregorian ordinals (the same
    integers Python date.toordinal uses); date subtraction gives the day
    difference and adding a timedelta adds the day count.
  - The SequenceMatcher ratio from difflib is an external library; the model
    is parameterised over an arbitrary similarity function
    simFn : String -> String -> Rat, standing for
    SequenceMatcher(None, a, b).ratio().  On the inputs used by the concrete
    theorems the only fact needed is that identical strings have ratio 1,
    which holds for SequenceMatcher; eqSim below realises that behaviour.
  - The database session is modelled as a list of transaction records; the
    query-filter-update calls of the source are translated to list
    operations, and operations that write are given an explicit
    store-to-store signature.
  - uuid4 calls are modelled as caller-supplied fresh identifiers; the
    pattern_id field of the source dataclass (a pure uuid with no role in
    any property) is omitted.
-/

/-- Truncation toward zero on rationals, the behaviour of the Python int()
conversion.  Day gaps and the 0.7 word threshold are nonnegative at every
use site, where truncation agrees with the floor. -/
def pyInt (q : ℚ) : ℤ := if 0 ≤ q then ⌊q⌋ else -⌊-q⌋

/-- Lowercase conversion covering the ASCII range plus the uppercase
Portuguese accented letters, the repertoire this module works with
(Python str.lower restricted to that repertoire). -/
def charLower (c : Char) : Char :=
  if 'A' ≤ c ∧ c ≤ 'Z' then Char.ofNat (c.toNat + 32)
  else if c = 'Á' then 'á' else if c = 'À' then 'à' else if c = 'Â' then 'â'
  else if c = 'Ã' then 'ã' else if c = 'É' then 'é' else if c = 'Ê' then 'ê'
  else if c = 'Í' then 'í' else if c = 'Ó' then 'ó' else if c = 'Ô' then 'ô'
  else if c = 'Õ' then 'õ' else if c = 'Ú' then 'ú' else if c = 'Ç' then 'ç'
  else c

/-- Python text.lower() on a string. -/
def pyLower (s : String) : String := String.mk (s.data.map charLower)

/-- Python truthiness of the expression (a or b) on an optional string:
None and the empty string are falsy. -/
def pyOr (o : Option String) (dflt : String) : String :=
  match o with
  | some s => if s = "" then dflt else s
  | none => dflt

/-- Keys of a Python dict built by inserting the elements of a list in
order: each distinct value once, in first-occurrence order. -/
def firstOccs {α : Type} [DecidableEq α] (l : List α) : List α :=
  l.foldl (fun acc x => if x ∈ acc then acc else acc ++ [x]) []

/-- Python max(counts.items(), key=item-count)[0] where counts is a dict
counting the elements of l in insertion order: the first element reaching
the maximal count wins (Python max keeps the earliest maximum). -/
def pyMaxCount (l : List String) : String :=
  match firstOccs l with
  | [] => ""
  | k :: ks => ks.foldl (fun best w => if l.count best < l.count w then w else best) k

/-- Python min() over a list of rationals (0 for the empty list, which no
use site reaches). -/
def pyMinQ : List ℚ → ℚ
  | [] => 0
  | x :: xs => xs.foldl min x

/-- Python max() over a list of rationals (0 for the empty list, which no
use site reaches). -/
def pyMaxQ : List ℚ → ℚ
  | [] => 0
  | x :: xs => xs.foldl max x

/-- Gregorian leap-year test, as in the Python datetime module. -/
def isLeap (y : ℕ) : Bool := y % 4 = 0 ∧ (y % 100 ≠ 0 ∨ y % 400 = 0)

/-- Length in days of month m of year y. -/
def daysInMonth (y m : ℕ) : ℕ :=
  if m = 2 then (if isLeap y then 29 else 28)
  else if m = 4 ∨ m = 6 ∨ m = 9 ∨ m = 11 then 30
  else 31

/-- Days in the months of year y strictly before month m. -/
def daysBeforeMonth (y m : ℕ) : ℕ :=
  (List.range m).foldl (fun acc k => if 1 ≤ k then acc + daysInMonth y k else acc) 0

/-- Proleptic Gregorian ordinal of the date y-m-d, with day 1 being
January 1 of year 1, exactly as Python date.toordinal. -/
def toOrdinal (y m d : ℕ) : ℕ :=
  (y - 1) * 365 + (y - 1) / 4 - (y - 1) / 100 + (y - 1) / 400 + daysBeforeMonth y m + d

/-- Transaction record as exposed by the ORM model to this module: the
fields the detector reads, plus the three fields the marking operation
writes.  Dates are day ordinals, amounts exact decimals, the category
relationship is represented by its name. -/
structure Transaction where
  id : ℕ
  date : ℤ
  amount : ℚ
  description : String
  counterpart_name : Option String
  category : Option String
  llm_category : Option String
  is_recurring : Bool
  recurring_pattern : Option String
  recurring_group_id : Option ℕ
deriving DecidableEq, Repr

/-- RecurringPattern dataclass of the source (pattern_id, a fresh uuid with
no behavioural role, omitted). -/
structure RecurringPattern where
  description_pattern : String
  amount_range : ℚ × ℚ
  frequency_days : ℤ
  frequency_type : String
  confidence : ℝ
  transactions : List ℕ
  next_expected_date : ℤ
  merchant_pattern : Option String
  category_suggestion : Option String

/-- Forecast record produced by predict_next_transactions (one dict of the
predictions list). -/
structure ForecastRecord where
  predicted_date : ℤ
  description : String
  estimated_amount : ℚ
  category : String
  frequency_type : Option String
  confidence : ℚ
  recurring_group_id : ℕ
deriving DecidableEq, Repr

/-- Faithful translation of _are_transactions_similar, keeping the Python
exception behaviour: the amount check divides by max(|amount1|, |amount2|)
with no guard, so a pair of zero amounts (reached only when the
description check passes) raises ZeroDivisionError, modelled as none. -/
def are_transactions_similar_exc (simFn : String → String → ℚ)
    (t1 t2 : Transaction) : Option Bool :=
  if simFn (pyLower t1.description) (pyLower t2.description) < 0.8 then some false
  else
    let a1 : ℚ := |t1.amount|
    let a2 : ℚ := |t2.amount|
    if max a1 a2 = 0 then none
    else if 0.1 < |a1 - a2| / max a1 a2 then some false
    else
      let c1 := t1.counterpart_name.getD ""
      let c2 := t2.counterpart_name.getD ""
      if c1 ≠ "" ∧ c2 ≠ "" then
        some (!(simFn (pyLower c1) (pyLower c2) < 0.7))
      else some true

/-- Total version of _are_transactions_similar used by the grouping
pipeline, with the rational-division convention x / 0 = 0 standing in at
the one point where the source raises (see are_transactions_similar_exc;
on every input whose amounts are not both zero the two versions agree,
see are_transactions_similar_agrees). -/
def are_transactions_similar (simFn : String → String → ℚ)
    (t1 t2 : Transaction) : Bool :=
  if simFn (pyLower t1.description) (pyLower t2.description) < 0.8 then false
  else
    let a1 : ℚ := |t1.amount|
    let a2 : ℚ := |t2.amount|
    if 0.1 < |a1 - a2| / max a1 a2 then false
    else
      let c1 := t1.counterpart_name.getD ""
      let c2 := t2.counterpart_name.getD ""
      if c1 ≠ "" ∧ c2 ≠ "" then
        !(simFn (pyLower c1) (pyLower c2) < 0.7)
      else true

/-- Inner loop of _group_similar_transactions: scan the transactions after
the seed, absorbing each unused one similar to the seed; returns the
absorbed members in scan order together with the updated used-id set. -/
def absorb (simFn : String → String → ℚ) (seed : Transaction) :
    List Transaction → List ℕ → List Transaction × List ℕ
  | [], used => ([], used)
  | t :: rest, used =>
    if t.id ∈ used then absorb simFn seed rest used
    else if are_transactions_similar simFn seed t then
      let r := absorb simFn seed rest (t.id :: used)
      (t :: r.1, r.2)
    else absorb simFn seed rest used

/-- Outer loop of _group_similar_transactions: each not-yet-used
transaction seeds a group extended by absorb; groups below the
min_occurrences threshold (3) are dropped, but their members stay used. -/
def groupLoop (simFn : String → String → ℚ) :
    List Transaction → List ℕ → List (List Transaction)
  | [], _ => []
  | t :: rest, used =>
    if t.id ∈ used then groupLoop simFn rest used
    else
      let r := absorb simFn t rest (t.id :: used)
      if 3 ≤ (t :: r.1).length then (t :: r.1) :: groupLoop simFn rest r.2
      else groupLoop simFn rest r.2

/-- Translation of _group_similar_transactions. -/
def group_similar_transactions (simFn : String → String → ℚ)
    (transactions : List Transaction) : List (List Transaction) :=
  groupLoop simFn transactions []

/-- Mean of the day gaps (sum(intervals) / len(intervals)). -/
def avgOf (iv : List ℤ) : ℚ := ((iv.sum : ℤ) : ℚ) / iv.length

/-- Population variance of the day gaps. -/
def varOf (iv : List ℤ) : ℚ :=
  (iv.map (fun x => ((x : ℚ) - avgOf iv) ^ 2)).sum / iv.length

/-- Standard deviation of the day gaps (variance ** 0.5 in the source). -/
noncomputable def stdOf (iv : List ℤ) : ℝ := Real.sqrt ((varOf iv : ℚ) : ℝ)

/-- Coefficient of variation std / avg; meaningful at use sites only when
the mean gap is positive (the source substitutes float inf otherwise,
which the confidence base turns into 0, see confOf). -/
noncomputable def cvOf (iv : List ℤ) : ℝ := stdOf iv / ((avgOf iv : ℚ) : ℝ)

/-- First-match-wins scan of the frequency_patterns table
[(1, daily, 1), (7, weekly, 2), (14, biweekly, 3), (30, monthly, 5),
(90, quarterly, 10), (365, yearly, 30)] against the mean gap. -/
def matchBucket (avg : ℚ) : Option (ℤ × String) :=
  if |avg - 1| ≤ 1 then some (1, "daily")
  else if |avg - 7| ≤ 2 then some (7, "weekly")
  else if |avg - 14| ≤ 3 then some (14, "biweekly")
  else if |avg - 30| ≤ 5 then some (30, "monthly")
  else if |avg - 90| ≤ 10 then some (90, "quarterly")
  else if |avg - 365| ≤ 30 then some (365, "yearly")
  else none

/-- Target interval and frequency-type classification of _detect_frequency:
the matched bucket, or the truncated raw mean with the irregular label when
no bucket matches. -/
def freqOf (iv : List ℤ) : ℤ × String :=
  (matchBucket (avgOf iv)).getD (pyInt (avgOf iv), "irregular")

/-- Confidence computation of _detect_frequency: base max(0, 1 - cv/2)
(0 when the mean gap is not positive, the float-inf path of the source),
plus the occurrence bonus min(0.2, (len(intervals) - 2) * 0.05), halved
for the irregular classification, finally capped at 1. -/
noncomputable def confOf (iv : List ℤ) : ℝ :=
  let base : ℝ := if 0 < avgOf iv then max 0 (1 - cvOf iv / 2) else 0
  let withBonus : ℝ := base + min 0.2 (((iv.length : ℝ) - 2) * 0.05)
  let penalized : ℝ := if (freqOf iv).2 = "irregular" then withBonus * 0.5 else withBonus
  min 1 penalized

/-- Translation of _detect_frequency: None only on an empty interval list,
otherwise the (frequency_days, frequency_type, confidence) triple. -/
noncomputable def detect_frequency (iv : List ℤ) : Option (ℤ × String × ℝ) :=
  if iv = [] then none
  else some ((freqOf iv).1, (freqOf iv).2, confOf iv)

/-- Stop-word set of _find_common_words. -/
def stop_words : List String :=
  ["de", "da", "do", "das", "dos", "e", "o", "a", "os", "as", "em", "no", "na",
   "nos", "nas", "para", "por", "com", "sem", "sob", "sobre", "entre", "ate",
   "até", "desde", "durante", "pix", "transferencia", "transferência",
   "pagamento", "compra", "debito", "débito"]

/-- Word character for the purposes of the regex word boundary: the
re module treats letters, digits and the underscore as word characters
(accented letters included under Unicode matching). -/
def isWordChar (c : Char) : Bool :=
  c.isAlphanum || c = '_' ||
  c ∈ ['á', 'à', 'â', 'ã', 'é', 'ê', 'í', 'ó', 'ô', 'õ', 'ú', 'ç',
       'Á', 'À', 'Â', 'Ã', 'É', 'Ê', 'Í', 'Ó', 'Ô', 'Õ', 'Ú', 'Ç']

/-- Character class of the findall word regex: lowercase a-z plus the
listed Portuguese accented letters. -/
def isLetterChar (c : Char) : Bool :=
  ('a' ≤ c && c ≤ 'z') ||
  c ∈ ['á', 'à', 'â', 'ã', 'é', 'ê', 'í', 'ó', 'ô', 'õ', 'ú', 'ç']

/-- Maximal runs of word characters of a character list, in order. -/
def wordRuns : List Char → List Char → List (List Char)
  | [], cur => if cur = [] then [] else [cur.reverse]
  | c :: cs, cur =>
    if isWordChar c then wordRuns cs (c :: cur)
    else if cur = [] then wordRuns cs [] else cur.reverse :: wordRuns cs []

/-- Python re.findall of the boundary-delimited letter-class regex on a
text: the maximal word-character runs consisting entirely of characters of
the letter class. -/
def findallWords (s : String) : List String :=
  ((wordRuns s.data []).filter (fun r => r.all isLetterChar)).map (fun r => String.mk r)

/-- Per-text token extraction of _find_common_words: findall on the
lowercased text, keeping tokens longer than 2 characters that are not stop
words. -/
def tokensOf (text : String) : List String :=
  (findallWords (pyLower text)).filter (fun w => 2 < w.length && !(decide (w ∈ stop_words)))

/-- Concatenation of the token lists of all texts (all_words in the
source); word counts are occurrence counts over this list. -/
def allWordsOf (texts : List String) : List String := texts.flatMap tokensOf

/-- Qualification threshold of _find_common_words:
max(1, int(len(texts) * 0.7)) - note the truncating int() conversion. -/
def minFreqOf (n : ℕ) : ℤ := max 1 (pyInt ((n : ℚ) * 0.7))

/-- Translation of _find_common_words: words (in dict insertion order,
that is first occurrence order) whose occurrence count reaches the
threshold, stably sorted by count descending, first three kept. -/
def find_common_words (texts : List String) : List String :=
  let aw := allWordsOf texts
  let common := (firstOccs aw).filter (fun w => decide (minFreqOf texts.length ≤ (aw.count w : ℤ)))
  (List.insertionSort (fun a b => aw.count b ≤ aw.count a) common).take 3

/-- Translation of _generate_description_pattern: the common words joined
by spaces, or the most common exact description when no word qualifies. -/
def generate_description_pattern (transactions : List Transaction) : String :=
  let descriptions := transactions.map (·.description)
  match find_common_words descriptions with
  | [] => pyMaxCount descriptions
  | ws => String.intercalate " " ws

/-- Counterpart names present on the group (Python truthiness: None and
the empty string drop out). -/
def merchantsOf (transactions : List Transaction) : List String :=
  (transactions.filterMap (·.counterpart_name)).filter (fun m => m ≠ "")

/-- Translation of _generate_merchant_pattern: the most common counterpart
name, None when no transaction carries one. -/
def generate_merchant_pattern (transactions : List Transaction) : Option String :=
  match merchantsOf transactions with
  | [] => none
  | ms => some (pyMaxCount ms)

/-- Category label a transaction contributes to the suggestion count.
The source line is
  tx.llm_category or tx.category.name if tx.category else "Outros"
which Python parses as
  (tx.llm_category or tx.category.name) if tx.category else "Outros",
so a transaction with no category relationship contributes the literal
Outros even when an llm_category is present. -/
def categoryLabel (t : Transaction) : String :=
  match t.category with
  | some c => pyOr t.llm_category c
  | none => "Outros"

/-- Category suggestion of _analyze_transaction_group: the label with the
highest count (first maximum wins); None only for an empty group, since
every transaction contributes a label. -/
def catSuggestionOf (transactions : List Transaction) : Option String :=
  match transactions with
  | [] => none
  | _ => some (pyMaxCount (transactions.map categoryLabel))

/-- Stable sort by date (transactions.sort(key=date) in the source;
Python list sort is stable, as is insertion sort). -/
def sortByDate (l : List Transaction) : List Transaction :=
  List.insertionSort (fun a b => a.date ≤ b.date) l

/-- Consecutive day gaps of a date-sorted transaction list. -/
def gapsOf (txs : List Transaction) : List ℤ :=
  (txs.zip txs.tail).map (fun p => p.2.date - p.1.date)

/-- Date of transactions[-1] (0 for the empty list, which no use site
reaches). -/
def lastDateOf (txs : List Transaction) : ℤ :=
  match txs.getLast? with
  | some t => t.date
  | none => 0

/-- Pair (min, max) of the absolute amounts of the group. -/
def amountRangeOf (txs : List Transaction) : ℚ × ℚ :=
  (pyMinQ (txs.map (fun t => |t.amount|)), pyMaxQ (txs.map (fun t => |t.amount|)))

/-- Translation of _analyze_transaction_group: sort the group by date,
take consecutive gaps, classify the frequency, and assemble the
RecurringPattern value. -/
noncomputable def analyze_transaction_group (g : List Transaction) : Option RecurringPattern :=
  if g.length < 3 then none
  else
    let txs := sortByDate g
    let iv := gapsOf txs
    if iv = [] then none
    else
      match detect_frequency iv with
      | none => none
      | some (fd, ft, conf) =>
        some
          { description_pattern := generate_description_pattern txs
            amount_range := amountRangeOf txs
            frequency_days := fd
            frequency_type := ft
            confidence := conf
            transactions := txs.map (·.id)
            next_expected_date := lastDateOf txs + fd
            merchant_pattern := generate_merchant_pattern txs
            category_suggestion := catSuggestionOf txs }

/-- Candidate pool of detect_recurring_transactions: the store filtered to
date >= today - days_back and is_recurring false, ordered by date. -/
def candidateTxs (today days_back : ℤ) (db : List Transaction) : List Transaction :=
  sortByDate (db.filter (fun t => decide (today - days_back ≤ t.date) && !t.is_recurring))

open Classical in
/-- Per-group step of the pattern collection loop of
detect_recurring_transactions: analyze the group when it has at least
min_occurrences members and keep the pattern when its confidence is at
least 0.6. -/
noncomputable def keepPattern (g : List Transaction) : Option RecurringPattern :=
  if 3 ≤ g.length then
    match analyze_transaction_group g with
    | some p => if (0.6 : ℝ) ≤ p.confidence then some p else none
    | none => none
  else none

/-- Pattern collection loop of detect_recurring_transactions. -/
noncomputable def rawPatterns (simFn : String → String → ℚ)
    (txs : List Transaction) : List RecurringPattern :=
  (group_similar_transactions simFn txs).filterMap keepPattern

open Classical in
/-- Translation of detect_recurring_transactions: empty result when fewer
than min_occurrences candidates, otherwise the confidence-filtered
patterns stably sorted by confidence descending. -/
noncomputable def detect_recurring_transactions (simFn : String → String → ℚ)
    (today days_back : ℤ) (db : List Transaction) : List RecurringPattern :=
  let txs := candidateTxs today days_back db
  if txs.length < 3 then []
  else List.insertionSort (fun p q => q.confidence ≤ p.confidence) (rawPatterns simFn txs)

/-- Store-passing rendering of the detection entry point: the body of the
source function only reads from the session (one filtered SELECT); it
contains no attribute assignment and no commit, so the store component
passes through unchanged. -/
noncomputable def detectSession (simFn : String → String → ℚ)
    (today days_back : ℤ) (db : List Transaction) :
    List Transaction × List RecurringPattern :=
  (db, detect_recurring_transactions simFn today days_back db)

/-- Field update applied to each transaction found by the
mark_transactions_as_recurring query. -/
def markTransaction (pat : RecurringPattern) (gid : ℕ) (t : Transaction) : Transaction :=
  { t with is_recurring := true
           recurring_pattern := some pat.frequency_type
           recurring_group_id := some gid }

/-- Translation of mark_transactions_as_recurring: the store updates every
transaction whose id the pattern references (ids with no matching record
simply match nothing), and the returned count is the number of records the
query found.  The fresh uuid4 group id is the caller-supplied gid. -/
def mark_transactions_as_recurring (db : List Transaction)
    (pat : RecurringPattern) (gid : ℕ) : List Transaction × ℕ :=
  (db.map (fun t => if t.id ∈ pat.transactions then markTransaction pat gid t else t),
   (db.filter (fun t => decide (t.id ∈ pat.transactions))).length)

/-- Frequency map of predict_next_transactions with its default of 30 for
unrecognized (or absent) pattern strings. -/
def freqDaysFromPattern (p : Option String) : ℤ :=
  if p = some "daily" then 1
  else if p = some "weekly" then 7
  else if p = some "biweekly" then 14
  else if p = some "monthly" then 30
  else if p = some "quarterly" then 90
  else if p = some "yearly" then 365
  else 30

/-- Projection loop of predict_next_transactions: dates next, next + f,
... while they do not exceed the target date.  The positivity test on f
encodes loop termination; every frequency the map yields is positive. -/
def projectDates (f target next : ℤ) : List ℤ :=
  if 0 < f ∧ next ≤ target then next :: projectDates f target (next + f) else []
termination_by (target + 1 - next).toNat
decreasing_by omega

/-- Distinct (recurring_group_id, recurring_pattern) pairs of the marked
recurring transactions, in first-occurrence order (the SELECT DISTINCT of
the source; row order is the deterministic store order of this model). -/
def recurringGroupKeys (db : List Transaction) : List (ℕ × Option String) :=
  firstOccs ((db.filter (fun t => t.is_recurring && t.recurring_group_id.isSome)).map
    (fun t => (t.recurring_group_id.getD 0, t.recurring_pattern)))

/-- Most recent transaction of a marked group (ORDER BY date DESC / first;
among equal dates this model keeps the earliest stored, tie order being
unspecified in the source). -/
def lastTxOfGroup (db : List Transaction) (gid : ℕ) : Option Transaction :=
  (db.filter (fun t => decide (t.recurring_group_id = some gid))).foldl
    (fun acc t =>
      match acc with
      | none => some t
      | some b => if b.date < t.date then some t else some b)
    none

/-- Translation of predict_next_transactions: for each distinct marked
group project forward from its last transaction in fixed steps up to
today + days_ahead, then sort all forecast records by predicted date. -/
def predict_next_transactions (db : List Transaction) (today days_ahead : ℤ) :
    List ForecastRecord :=
  let target := today + days_ahead
  let preds := (recurringGroupKeys db).flatMap (fun gp =>
    match lastTxOfGroup db gp.1 with
    | none => []
    | some last =>
      let fd := freqDaysFromPattern gp.2
      (projectDates fd target (last.date + fd)).map (fun d =>
        { predicted_date := d
          description := last.description
          estimated_amount := last.amount
          category := pyOr last.llm_category (match last.category with | some c => c | none => "Outros")
          frequency_type := gp.2
          confidence := 0.8
          recurring_group_id := gp.1 }))
  List.insertionSort (fun a b => a.predicted_date ≤ b.predicted_date) preds

/-- Store-passing rendering of the forecast entry point (read-only, like
detection). -/
def predictSession (db : List Transaction) (today days_ahead : ℤ) :
    List Transaction × List ForecastRecord :=
  (db, predict_next_transactions db today days_ahead)

/-- Store-passing rendering of the marking entry point (the one operation
whose body assigns transaction fields and commits). -/
def markSession (db : List Transaction) (pat : RecurringPattern) (gid : ℕ) :
    List Transaction × ℕ :=
  mark_transactions_as_recurring db pat gid

/-- Similarity function realising the only SequenceMatcher fact the
concrete theorems rely on: identical strings have ratio 1 (distinct
strings are given ratio 0; every concrete group below compares only
identical descriptions). -/
def eqSim (a b : String) : ℚ := if a = b then 1 else 0

/-- Transaction constructor for the concrete inputs: no counterpart, no
category, not yet marked recurring. -/
def mkTx (i : ℕ) (d : ℤ) (desc : String) (amt : ℚ) : Transaction :=
  { id := i, date := d, amount := amt, description := desc,
    counterpart_name := none, category := none, llm_category := none,
    is_recurring := false, recurring_pattern := none, recurring_group_id := none }

/-- Group of five similar transactions whose consecutive day gaps are
[3, 45, 9, 60] (claim C1). -/
def c1db : List Transaction :=
  [mkTx 1 0 "assinatura clube" 10, mkTx 2 3 "assinatura clube" 10,
   mkTx 3 48 "assinatura clube" 10, mkTx 4 57 "assinatura clube" 10,
   mkTx 5 117 "assinatura clube" 10]

/-- Pair of zero-amount transactions with identical descriptions
(claim C2). -/
def c2t1 : Transaction := mkTx 1 0 "pagamento condominio" 0

/-- Second transaction of the zero-amount pair (claim C2). -/
def c2t2 : Transaction := mkTx 2 7 "pagamento condominio" 0

/-- Store holding a single transaction, id 1 (claim C3). -/
def c3db : List Transaction := [mkTx 1 0 "plano saude" 50]

/-- Pattern referencing ids 1 and 2, of which id 2 has no record in c3db
(claim C3). -/
noncomputable def c3pat : RecurringPattern :=
  { description_pattern := "plano saude", amount_range := (50, 50),
    frequency_days := 30, frequency_type := "monthly", confidence := 0.9,
    transactions := [1, 2], next_expected_date := 30,
    merchant_pattern := none, category_suggestion := none }

/-- Six Netflix transactions dated the 15th of January through June 2024,
a window whose sixth month has 30 days (claim C4). -/
def c4dbA : List Transaction :=
  [mkTx 1 (toOrdinal 2024 1 15) "Netflix Assinatura" (-39.9),
   mkTx 2 (toOrdinal 2024 2 15) "Netflix Assinatura" (-39.9),
   mkTx 3 (toOrdinal 2024 3 15) "Netflix Assinatura" (-39.9),
   mkTx 4 (toOrdinal 2024 4 15) "Netflix Assinatura" (-39.9),
   mkTx 5 (toOrdinal 2024 5 15) "Netflix Assinatura" (-39.9),
   mkTx 6 (toOrdinal 2024 6 15) "Netflix Assinatura" (-39.9)]

/-- Six Netflix transactions dated the 15th of February through July 2024,
a window whose sixth month has 31 days (claim C4 counterexample). -/
def c4dbB : List Transaction :=
  [mkTx 1 (toOrdinal 2024 2 15) "Netflix Assinatura" (-39.9),
   mkTx 2 (toOrdinal 2024 3 15) "Netflix Assinatura" (-39.9),
   mkTx 3 (toOrdinal 2024 4 15) "Netflix Assinatura" (-39.9),
   mkTx 4 (toOrdinal 2024 5 15) "Netflix Assinatura" (-39.9),
   mkTx 5 (toOrdinal 2024 6 15) "Netflix Assinatura" (-39.9),
   mkTx 6 (toOrdinal 2024 7 15) "Netflix Assinatura" (-39.9)]

/-- Six transactions whose descriptions make the word netflix appear in
exactly 4 of the 6 texts (claim C6). -/
def c6txs : List Transaction :=
  [mkTx 1 0 "netflix filmes" 10, mkTx 2 30 "netflix series" 10,
   mkTx 3 60 "netflix musica" 10, mkTx 4 90 "netflix jogos" 10,
   mkTx 5 120 "abc def" 10, mkTx 6 150 "abc def" 10]

/-- Group of three transactions carrying an llm category but no explicit
category relationship (claim C7). -/
def c7txs : List Transaction :=
  [{ mkTx 1 0 "plano x" 10 with llm_category := some "Streaming" },
   { mkTx 2 30 "plano x" 10 with llm_category := some "Streaming" },
   { mkTx 3 60 "plano x" 10 with llm_category := some "Streaming" }]

/-- Older transaction of the marked weekly recurring group (claim C8). -/
def c8tx1 (D : ℤ) : Transaction :=
  { id := 1, date := D - 7, amount := 50, description := "academia",
    counterpart_name := none, category := none, llm_category := none,
    is_recurring := true, recurring_pattern := some "weekly",
    recurring_group_id := some 5 }

/-- Most recent transaction, dated day D, of the marked weekly recurring
group (claim C8). -/
def c8tx2 (D : ℤ) : Transaction :=
  { id := 2, date := D, amount := 50, description := "academia",
    counterpart_name := none, category := none, llm_category := none,
    is_recurring := true, recurring_pattern := some "weekly",
    recurring_group_id := some 5 }

/-- Marked weekly recurring group of two transactions, the most recent
dated day D (claim C8). -/
def c8dbAt (D : ℤ) : List Transaction := [c8tx1 D, c8tx2 D]

/-- Modelled from the claim wording of C5: the confidence formula with the
occurrence bonus indexed by the number n of transactions in the group. -/
noncomputable def c5ClaimConf (n : ℕ) (iv : List ℤ) : ℝ :=
  min 1 ((max 0 (1 - cvOf iv / 2) + min 0.2 (((n : ℝ) - 2) * 0.05)) *
    (if (freqOf iv).2 = "irregular" then 0.5 else 1))

/-- Modelled from the spec wording for C7: prefer the llm category when
present, else the explicit category; None when no transaction carries
either. -/
def specCategorySuggestion (transactions : List Transaction) : Option String :=
  match transactions.filterMap
      (fun t => match t.llm_category with | some s => some s | none => t.category) with
  | [] => none
  | ls => some (pyMaxCount ls)

/-- Modelled from the spec wording for C6: keep words contained in at
least ceil(0.7 n) of the n descriptions (floor 1), up to the three most
frequent by that containment count, falling back to the most common exact
description. -/
def specDescriptionPattern (transactions : List Transaction) : String :=
  let texts := transactions.map (·.description)
  let inCount : String → ℕ := fun w => (texts.filter (fun t => decide (w ∈ tokensOf t))).length
  let minCount : ℤ := max 1 ⌈(texts.length : ℚ) * 0.7⌉
  let qualifying := (firstOccs (allWordsOf texts)).filter (fun w => decide (minCount ≤ (inCount w : ℤ)))
  let chosen := (List.insertionSort (fun a b => inCount b ≤ inCount a) qualifying).take 3
  if chosen = [] then pyMaxCount texts else String.intercalate " " chosen


lemma are_transactions_similar_agrees (simFn : String → String → ℚ)
    (t1 t2 : Transaction) (b : Bool)
    (h : are_transactions_similar_exc simFn t1 t2 = some b) :
    are_transactions_similar simFn t1 t2 = b := by
  simp only [are_transactions_similar_exc] at h
  simp only [are_transactions_similar]
  split_ifs at h ⊢ <;> simp_all

lemma similar_same (simFn : String → String → ℚ) (t u : Transaction)
    (hd : simFn (pyLower t.description) (pyLower u.description) = 1)
    (ha : t.amount = u.amount)
    (hc : t.counterpart_name.getD "" = "" ∨ u.counterpart_name.getD "" = "") :
    are_transactions_similar simFn t u = true := by
  have h1 : ¬ (simFn (pyLower t.description) (pyLower u.description) < 0.8) := by
    rw [hd]; norm_num
  have h2 : ¬ ((0.1 : ℚ) < abs (|t.amount| - |u.amount|) / max |t.amount| |u.amount|) := by
    rw [ha, sub_self, abs_zero, zero_div]; norm_num
  have h3 : ¬ (¬ t.counterpart_name.getD "" = "" ∧ ¬ u.counterpart_name.getD "" = "") := by
    rcases hc with hc | hc <;> simp [hc]
  simp only [are_transactions_similar, if_neg h1, if_neg h2, if_neg h3]

lemma firstOccs_foldl_mem {α : Type} [DecidableEq α] (l : List α) (acc : List α) (x : α) :
    x ∈ l.foldl (fun acc y => if y ∈ acc then acc else acc ++ [y]) acc ↔ x ∈ acc ∨ x ∈ l := by
  induction l generalizing acc with
  | nil => simp
  | cons y ys ih =>
    simp only [List.foldl_cons, List.mem_cons]
    by_cases hy : y ∈ acc
    · rw [if_pos hy, ih]
      constructor
      · rintro (h | h)
        · exact Or.inl h
        · exact Or.inr (Or.inr h)
      · rintro (h | rfl | h)
        · exact Or.inl h
        · exact Or.inl hy
        · exact Or.inr h
    · rw [if_neg hy, ih]
      simp only [List.mem_append, List.mem_singleton]
      tauto

lemma mem_firstOccs {α : Type} [DecidableEq α] (l : List α) (x : α) :
    x ∈ firstOccs l ↔ x ∈ l := by
  unfold firstOccs
  rw [firstOccs_foldl_mem]
  simp

lemma firstOccs_ne_nil {α : Type} [DecidableEq α] (l : List α) (h : l ≠ []) :
    firstOccs l ≠ [] := by
  obtain ⟨x, xs, rfl⟩ := List.exists_cons_of_ne_nil h
  intro hcon
  have := (mem_firstOccs (x :: xs) x).mpr (List.mem_cons_self _ _)
  rw [hcon] at this
  simp at this

lemma pyMaxCount_eq (l : List String) (k : String) (ks : List String)
    (hfo : firstOccs l = k :: ks) :
    pyMaxCount l = ks.foldl (fun best w => if l.count best < l.count w then w else best) k := by
  unfold pyMaxCount
  rw [hfo]

lemma foldl_best_spec (l : List String) (ks : List String) (k : String) :
    (ks.foldl (fun best w => if l.count best < l.count w then w else best) k = k ∨
      ks.foldl (fun best w => if l.count best < l.count w then w else best) k ∈ ks) ∧
    l.count k ≤ l.count (ks.foldl (fun best w => if l.count best < l.count w then w else best) k) ∧
    ∀ w ∈ ks, l.count w ≤ l.count (ks.foldl (fun best w => if l.count best < l.count w then w else best) k) := by
  induction ks generalizing k with
  | nil => simp
  | cons w ws ih =>
    simp only [List.foldl_cons]
    by_cases hw : l.count k < l.count w
    · rw [if_pos hw]
      obtain ⟨hmem, hk, hall⟩ := ih w
      refine ⟨?_, le_trans (le_of_lt hw) hk, ?_⟩
      · rcases hmem with h | h
        · right; simp [h]
        · right; simp [h]
      · intro v hv
        rcases List.mem_cons.mp hv with rfl | hv
        · exact hk
        · exact hall v hv
    · rw [if_neg hw]
      obtain ⟨hmem, hk, hall⟩ := ih k
      refine ⟨hmem.imp id (by intro h; simp [h]), hk, ?_⟩
      intro v hv
      rcases List.mem_cons.mp hv with rfl | hv
      · exact le_trans (le_of_not_lt hw) hk
      · exact hall v hv

lemma pyMaxCount_mem (l : List String) (h : l ≠ []) : pyMaxCount l ∈ l := by
  obtain ⟨k, ks, hfo⟩ := List.exists_cons_of_ne_nil (firstOccs_ne_nil l h)
  rw [pyMaxCount_eq l k ks hfo]
  obtain ⟨hmem, -, -⟩ := foldl_best_spec l ks k
  rcases hmem with heq | hmem
  · rw [heq]
    exact (mem_firstOccs _ _).mp (hfo ▸ List.mem_cons_self _ _)
  · exact (mem_firstOccs _ _).mp (hfo ▸ List.mem_cons_of_mem _ hmem)

lemma pyMaxCount_count_le (l : List String) (c : String) (hc : c ∈ l) :
    l.count c ≤ l.count (pyMaxCount l) := by
  obtain ⟨k, ks, hfo⟩ := List.exists_cons_of_ne_nil
    (firstOccs_ne_nil l (by rintro rfl; simp at hc))
  rw [pyMaxCount_eq l k ks hfo]
  obtain ⟨-, hk, hall⟩ := foldl_best_spec l ks k
  have hcf : c ∈ k :: ks := hfo ▸ (mem_firstOccs _ _).mpr hc
  rcases List.mem_cons.mp hcf with rfl | hother
  · exact hk
  · exact hall c hother

lemma sortByDate_of_sorted (l : List Transaction)
    (h : List.Sorted (fun a b : Transaction => a.date ≤ b.date) l) :
    sortByDate l = l :=
  List.Sorted.insertionSort_eq h

example : sortByDate c1db = c1db := by
  apply sortByDate_of_sorted
  decide

lemma analyze_some_eval (g : List Transaction) (h3 : ¬ g.length < 3)
    (hiv : gapsOf (sortByDate g) ≠ []) :
    analyze_transaction_group g = some
      { description_pattern := generate_description_pattern (sortByDate g)
        amount_range := amountRangeOf (sortByDate g)
        frequency_days := (freqOf (gapsOf (sortByDate g))).1
        frequency_type := (freqOf (gapsOf (sortByDate g))).2
        confidence := confOf (gapsOf (sortByDate g))
        transactions := (sortByDate g).map (·.id)
        next_expected_date := lastDateOf (sortByDate g) + (freqOf (gapsOf (sortByDate g))).1
        merchant_pattern := generate_merchant_pattern (sortByDate g)
        category_suggestion := catSuggestionOf (sortByDate g) } := by
  simp only [analyze_transaction_group, detect_frequency, if_neg h3, if_neg hiv]

/-- C2: the claim says the amount-similarity check is guarded against
division by zero for pairs of zero-amount transactions.  The code is not
guarded: on two zero-amount transactions with identical descriptions the
similarity predicate reaches the division 0 / 0 and raises
ZeroDivisionError (the none result of the faithful translation), so the
claim names a genuine code bug relative to the spec requirement. -/
theorem C2_zero_amount_pair_raises :
    are_transactions_similar_exc eqSim c2t1 c2t2 = none ∧
    c2t1.amount = 0 ∧ c2t2.amount = 0 := by
  refine ⟨?_, by simp [c2t1, mkTx], by simp [c2t2, mkTx]⟩
  simp only [are_transactions_similar_exc, eqSim, c2t1, c2t2, mkTx]
  norm_num

/-- C3 counterexample: a pattern referencing ids 1 and 2 against a store
holding only id 1.  The claim asserts the bulk update fails atomically and
no record changes; instead the single present record is updated
(is_recurring flips from false to true). -/
theorem C3_missing_id_not_atomic :
    (2 ∈ c3pat.transactions) ∧ ((2 : ℕ) ∉ c3db.map (·.id)) ∧
    ((mark_transactions_as_recurring c3db c3pat 7).1.map (·.is_recurring) = [true]) ∧
    (c3db.map (·.is_recurring) = [false]) := by
  decide

/-- C3 (amended): mark-as-recurring updates exactly the referenced
transactions present in the store, setting is_recurring,
recurring_pattern and recurring_group_id with the one shared fresh group
id, leaves every other record and every other field unchanged, and
returns the count of records found; missing ids are silently ignored and
never reported. -/
theorem C3_mark_updates_present_subset (db : List Transaction)
    (pat : RecurringPattern) (gid : ℕ) :
    (mark_transactions_as_recurring db pat gid).1.length = db.length ∧
    List.Forall₂ (fun t u =>
      (t.id ∈ pat.transactions →
        u.is_recurring = true ∧ u.recurring_pattern = some pat.frequency_type ∧
        u.recurring_group_id = some gid ∧ u.id = t.id ∧ u.date = t.date ∧
        u.amount = t.amount ∧ u.description = t.description ∧
        u.counterpart_name = t.counterpart_name ∧ u.category = t.category ∧
        u.llm_category = t.llm_category) ∧
      (t.id ∉ pat.transactions → u = t)) db (mark_transactions_as_recurring db pat gid).1 ∧
    (mark_transactions_as_recurring db pat gid).2 =
      db.countP (fun t => decide (t.id ∈ pat.transactions)) := by
  refine ⟨by simp [mark_transactions_as_recurring], ?_,
    by simp [mark_transactions_as_recurring, List.countP_eq_length_filter]⟩
  induction db with
  | nil => simp [mark_transactions_as_recurring]
  | cons t ts ih =>
    simp only [mark_transactions_as_recurring, List.map_cons] at ih ⊢
    refine List.Forall₂.cons ?_ ih
    by_cases h : t.id ∈ pat.transactions
    · simp [h, markTransaction]
    · simp [h]

lemma c8_keys (D : ℤ) : recurringGroupKeys (c8dbAt D) = [(5, some "weekly")] := by
  simp [recurringGroupKeys, c8dbAt, c8tx1, c8tx2, firstOccs]

lemma c8_last (D : ℤ) : lastTxOfGroup (c8dbAt D) 5 = some (c8tx2 D) := by
  simp only [lastTxOfGroup, c8dbAt, c8tx1, c8tx2]
  norm_num [List.filter]

lemma c8_proj (D : ℤ) : projectDates 7 (D + 30) (D + 7) = [D + 7, D + 14, D + 21, D + 28] := by
  rw [projectDates, if_pos (by omega : (0 : ℤ) < 7 ∧ D + 7 ≤ D + 30)]
  rw [show D + 7 + 7 = D + 14 by ring]
  rw [projectDates, if_pos (by omega : (0 : ℤ) < 7 ∧ D + 14 ≤ D + 30)]
  rw [show D + 14 + 7 = D + 21 by ring]
  rw [projectDates, if_pos (by omega : (0 : ℤ) < 7 ∧ D + 21 ≤ D + 30)]
  rw [show D + 21 + 7 = D + 28 by ring]
  rw [projectDates, if_pos (by omega : (0 : ℤ) < 7 ∧ D + 28 ≤ D + 30)]
  rw [show D + 28 + 7 = D + 35 by ring]
  rw [projectDates, if_neg (by omega : ¬ ((0 : ℤ) < 7 ∧ D + 35 ≤ D + 30))]

lemma predict_c8_eval (D today : ℤ) :
    predict_next_transactions (c8dbAt D) today 30 =
      List.insertionSort (fun a b : ForecastRecord => a.predicted_date ≤ b.predicted_date)
        ((projectDates 7 (today + 30) (D + 7)).map (fun d =>
          { predicted_date := d
            description := "academia"
            estimated_amount := 50
            category := "Outros"
            frequency_type := some "weekly"
            confidence := 0.8
            recurring_group_id := 5 })) := by
  simp only [predict_next_transactions, c8_keys]
  simp [c8_last, c8tx2, pyOr, freqDaysFromPattern]

/-- C8 (amended): for a stored weekly recurring group whose most recent
transaction is dated day D, a 30-day forecast requested on day D itself
returns exactly 4 records with predicted dates D+7, D+14, D+21, D+28 in
ascending order. -/
theorem C8_weekly_forecast_on_day (D : ℤ) :
    (predict_next_transactions (c8dbAt D) D 30).map (·.predicted_date) =
      [D + 7, D + 14, D + 21, D + 28] ∧
    (predict_next_transactions (c8dbAt D) D 30).length = 4 := by
  have h := predict_c8_eval D D
  rw [c8_proj D] at h
  simp only [List.map_cons, List.map_nil] at h
  rw [List.Sorted.insertionSort_eq (by
    simp [List.sorted_cons, List.forall_mem_cons])] at h
  rw [h]
  simp

/-- C8 counterexample: the projection loop is anchored at today, not at
the last transaction date.  With the same weekly group (last transaction
day 100) and the forecast requested on day 107, the 30-day forecast
returns 5 records (including day 135), not the claimed floor(30/7) = 4. -/
theorem C8_lookahead_counterexample :
    (predict_next_transactions (c8dbAt 100) 107 30).length = 5 ∧
    (predict_next_transactions (c8dbAt 100) 107 30).map (·.predicted_date) =
      [107, 114, 121, 128, 135] ∧
    (5 : ℕ) ≠ 4 := by
  have h := predict_c8_eval 100 107
  have hproj : projectDates 7 137 107 = [107, 114, 121, 128, 135] := by
    rw [projectDates, if_pos (by norm_num : (0 : ℤ) < 7 ∧ (107 : ℤ) ≤ 137)]
    rw [show (107 : ℤ) + 7 = 114 by norm_num]
    rw [projectDates, if_pos (by norm_num : (0 : ℤ) < 7 ∧ (114 : ℤ) ≤ 137)]
    rw [show (114 : ℤ) + 7 = 121 by norm_num]
    rw [projectDates, if_pos (by norm_num : (0 : ℤ) < 7 ∧ (121 : ℤ) ≤ 137)]
    rw [show (121 : ℤ) + 7 = 128 by norm_num]
    rw [projectDates, if_pos (by norm_num : (0 : ℤ) < 7 ∧ (128 : ℤ) ≤ 137)]
    rw [show (128 : ℤ) + 7 = 135 by norm_num]
    rw [projectDates, if_pos (by norm_num : (0 : ℤ) < 7 ∧ (135 : ℤ) ≤ 137)]
    rw [show (135 : ℤ) + 7 = 142 by norm_num]
    rw [projectDates, if_neg (by norm_num : ¬ ((0 : ℤ) < 7 ∧ (142 : ℤ) ≤ 137))]
  rw [show (107 : ℤ) + 30 = 137 by norm_num, show (100 : ℤ) + 7 = 107 by norm_num, hproj] at h
  simp only [List.map_cons, List.map_nil] at h
  rw [List.Sorted.insertionSort_eq (by
    simp [List.sorted_cons, List.forall_mem_cons])] at h
  rw [h]
  simp

lemma avg_2832 : avgOf [28, 32] = 30 := by norm_num [avgOf]

lemma var_2832 : varOf [28, 32] = 4 := by
  rw [varOf]
  simp only [avg_2832, List.map_cons, List.map_nil, List.sum_cons, List.sum_nil,
    List.length_cons, List.length_nil]
  norm_num

lemma mb_30 : matchBucket (30 : ℚ) = some (30, "monthly") := by
  unfold matchBucket
  rw [if_neg (by norm_num [abs_le] : ¬ |(30 : ℚ) - 1| ≤ 1)]
  rw [if_neg (by norm_num [abs_le] : ¬ |(30 : ℚ) - 7| ≤ 2)]
  rw [if_neg (by norm_num [abs_le] : ¬ |(30 : ℚ) - 14| ≤ 3)]
  rw [if_pos (by norm_num [abs_le] : |(30 : ℚ) - 30| ≤ 5)]

lemma freq_2832 : freqOf [28, 32] = (30, "monthly") := by
  rw [freqOf, avg_2832, mb_30]
  rfl

lemma std_2832 : stdOf [28, 32] = 2 := by
  rw [stdOf, var_2832, show (((4 : ℚ) : ℝ)) = (2 : ℝ) ^ 2 by norm_num,
    Real.sqrt_sq (by norm_num : (0 : ℝ) ≤ 2)]

lemma cv_2832 : cvOf [28, 32] = 1 / 15 := by
  rw [cvOf, std_2832, avg_2832]
  norm_num

lemma conf_2832 : confOf [28, 32] = 29 / 30 := by
  rw [confOf]
  simp only [avg_2832, cv_2832, freq_2832, List.length_cons, List.length_nil]
  norm_num
  rw [if_neg (by decide : ¬ ("monthly" = "irregular"))]
  rw [min_eq_right (by norm_num : (29 / 30 : ℝ) ≤ 1)]

lemma confOf_pos_mean (iv : List ℤ) (hpos : 0 < avgOf iv) :
    confOf iv = min 1 ((max 0 (1 - (Real.sqrt ((varOf iv : ℚ) : ℝ) / ((avgOf iv : ℚ) : ℝ)) / 2)
      + min 0.2 (((iv.length : ℝ) - 2) * 0.05)) *
      (if (freqOf iv).2 = "irregular" then 0.5 else 1)) := by
  simp only [confOf, cvOf, stdOf, if_pos hpos]
  by_cases hirr : (freqOf iv).2 = "irregular"
  · simp only [if_pos hirr]
  · simp only [if_neg hirr, mul_one]

/-- C5 (amended): for every nonempty gap list with positive mean, the
confidence produced by frequency inference equals
min(1, (max(0, 1 - cv/2) + min(0.2, (k - 2) * 0.05)) * p) where k is the
number of gaps (one less than the number of transactions), cv is the
population standard deviation of the gaps divided by their mean, and p is
0.5 exactly when the classification is irregular and 1 otherwise. -/
theorem C5_confidence_formula (iv : List ℤ) (h0 : iv ≠ []) (hpos : 0 < avgOf iv) :
    detect_frequency iv = some ((freqOf iv).1, (freqOf iv).2,
      min 1 ((max 0 (1 - (Real.sqrt ((varOf iv : ℚ) : ℝ) / ((avgOf iv : ℚ) : ℝ)) / 2)
        + min 0.2 (((iv.length : ℝ) - 2) * 0.05)) *
        (if (freqOf iv).2 = "irregular" then 0.5 else 1))) := by
  rw [detect_frequency, if_neg h0, confOf_pos_mean iv hpos]

/-- C5 witness: the amended confidence formula instantiated at the
concrete gap list [28, 32]. -/
theorem C5_confidence_formula_witness :
    (([28, 32] : List ℤ) ≠ []) ∧ (0 < avgOf [28, 32]) ∧
    detect_frequency [28, 32] = some ((freqOf [28, 32]).1, (freqOf [28, 32]).2,
      min 1 ((max 0 (1 - (Real.sqrt ((varOf [28, 32] : ℚ) : ℝ) / ((avgOf [28, 32] : ℚ) : ℝ)) / 2)
        + min 0.2 (((([28, 32] : List ℤ).length : ℝ) - 2) * 0.05)) *
        (if (freqOf [28, 32]).2 = "irregular" then 0.5 else 1))) :=
  ⟨by decide, by rw [avg_2832]; norm_num,
   C5_confidence_formula [28, 32] (by decide) (by rw [avg_2832]; norm_num)⟩

/-- C5 counterexample: for a group of 3 transactions with gaps [28, 32]
(mean 30, cv = 1/15, monthly) the code yields confidence 29/30, while the
claim formula with the occurrence bonus indexed by the transaction count
n = 3 yields min(1, 29/30 + 0.05) = 1. -/
theorem C5_bonus_index_counterexample :
    detect_frequency [28, 32] = some (30, "monthly", confOf [28, 32]) ∧
    confOf [28, 32] = 29 / 30 ∧
    c5ClaimConf 3 [28, 32] = 1 ∧
    ((29 / 30 : ℝ) ≠ 1) := by
  refine ⟨?_, conf_2832, ?_, by norm_num⟩
  · rw [detect_frequency, if_neg (by decide : ¬ (([28, 32] : List ℤ) = [])), freq_2832]
  · rw [c5ClaimConf]
    simp only [cv_2832, freq_2832]
    rw [if_neg (by decide : ¬ ("monthly" = "irregular")), mul_one]
    rw [max_eq_right (by norm_num : (0 : ℝ) ≤ 1 - 1 / 15 / 2)]
    rw [min_eq_right (by norm_num : (((3 : ℕ) : ℝ) - 2) * 0.05 ≤ 0.2)]
    rw [min_eq_left (by norm_num : (1 : ℝ) ≤ 1 - 1 / 15 / 2 + (((3 : ℕ) : ℝ) - 2) * 0.05)]

lemma cvOf_le_one (iv : List ℤ) (hpos : (0 : ℝ) < ((avgOf iv : ℚ) : ℝ))
    (hvv : ((varOf iv : ℚ) : ℝ) ≤ ((avgOf iv : ℚ) : ℝ) ^ 2) : cvOf iv ≤ 1 := by
  rw [cvOf, stdOf, div_le_one hpos]
  calc Real.sqrt ((varOf iv : ℚ) : ℝ) ≤ Real.sqrt (((avgOf iv : ℚ) : ℝ) ^ 2) :=
        Real.sqrt_le_sqrt hvv
    _ = ((avgOf iv : ℚ) : ℝ) := Real.sqrt_sq (le_of_lt hpos)

lemma confOf_ge_bound (iv : List ℤ) (hpos : 0 < avgOf iv)
    (hreg : ¬ ((freqOf iv).2 = "irregular"))
    (hcv : cvOf iv ≤ 1) (hlen : 4 ≤ iv.length) :
    (0.6 : ℝ) ≤ confOf iv := by
  simp only [confOf, if_pos hpos, if_neg hreg]
  have hn : (4 : ℝ) ≤ (iv.length : ℝ) := by exact_mod_cast hlen
  have hb : (0.1 : ℝ) ≤ min 0.2 (((iv.length : ℝ) - 2) * 0.05) := by
    rw [le_min_iff]
    constructor <;> nlinarith
  have hbase : (0.5 : ℝ) ≤ max 0 (1 - cvOf iv / 2) :=
    le_max_of_le_right (by linarith)
  exact le_min (by norm_num) (by linarith)

lemma avg_c1 : avgOf [3, 45, 9, 60] = 117 / 4 := by norm_num [avgOf]

lemma var_c1 : varOf [3, 45, 9, 60] = 9171 / 16 := by
  rw [varOf]
  simp only [avg_c1, List.map_cons, List.map_nil, List.sum_cons, List.sum_nil,
    List.length_cons, List.length_nil]
  norm_num

lemma mb_c1 : matchBucket (117 / 4 : ℚ) = some (30, "monthly") := by
  unfold matchBucket
  rw [if_neg (by norm_num [abs_le] : ¬ |(117 / 4 : ℚ) - 1| ≤ 1)]
  rw [if_neg (by norm_num [abs_le] : ¬ |(117 / 4 : ℚ) - 7| ≤ 2)]
  rw [if_neg (by norm_num [abs_le] : ¬ |(117 / 4 : ℚ) - 14| ≤ 3)]
  rw [if_pos (by norm_num [abs_le] : |(117 / 4 : ℚ) - 30| ≤ 5)]

lemma freq_c1 : freqOf [3, 45, 9, 60] = (30, "monthly") := by
  rw [freqOf, avg_c1, mb_c1]
  rfl

lemma conf_c1_ge : (0.6 : ℝ) ≤ confOf [3, 45, 9, 60] := by
  refine confOf_ge_bound _ (by rw [avg_c1]; norm_num) (by rw [freq_c1]; decide) ?_ (by decide)
  refine cvOf_le_one _ (by rw [avg_c1]; push_cast; norm_num) ?_
  rw [avg_c1, var_c1]
  push_cast
  norm_num

/-- C1 counterexample: the day gaps [3, 45, 9, 60] have mean 29.25,
which matches the monthly bucket (|29.25 - 30| = 0.75 is within the plus-minus 5
tolerance), so frequency inference classifies the group as monthly, not
irregular as the claim asserts. -/
theorem C1_gaps_classified_monthly :
    ((detect_frequency [3, 45, 9, 60]).map (fun r => r.2.1) = some "monthly") ∧
    ¬ ("monthly" = "irregular") := by
  constructor
  · rw [detect_frequency, if_neg (by decide : ¬ (([3, 45, 9, 60] : List ℤ) = [])), freq_c1]
    rfl
  · decide

lemma c1_similar (j : ℕ) (d : ℤ) :
    are_transactions_similar eqSim (mkTx 1 0 "assinatura clube" 10)
      (mkTx j d "assinatura clube" 10) = true := by
  refine similar_same _ _ _ (by simp [eqSim, mkTx]) (by simp [mkTx]) (Or.inl (by simp [mkTx]))

lemma mkTx_id (i : ℕ) (d : ℤ) (s : String) (a : ℚ) : (mkTx i d s a).id = i := rfl

lemma c1_groups : group_similar_transactions eqSim c1db = [c1db] := by
  simp [group_similar_transactions, c1db, groupLoop, absorb, c1_similar, mkTx_id]

lemma c1_cand : candidateTxs 117 365 c1db = c1db := by
  rw [candidateTxs, List.filter_eq_self.mpr (by decide)]
  exact sortByDate_of_sorted _ (by decide)

lemma c1_analyze : analyze_transaction_group c1db = some
    { description_pattern := generate_description_pattern c1db
      amount_range := amountRangeOf c1db
      frequency_days := 30
      frequency_type := "monthly"
      confidence := confOf [3, 45, 9, 60]
      transactions := [1, 2, 3, 4, 5]
      next_expected_date := lastDateOf c1db + 30
      merchant_pattern := generate_merchant_pattern c1db
      category_suggestion := catSuggestionOf c1db } := by
  have hsort : sortByDate c1db = c1db := sortByDate_of_sorted _ (by decide)
  have hgaps : gapsOf c1db = [3, 45, 9, 60] := by decide
  have h := analyze_some_eval c1db (by decide) (by rw [hsort, hgaps]; decide)
  rw [hsort, hgaps, freq_c1] at h
  rw [h]
  norm_num
  decide

open Classical in
lemma c1_detect : detect_recurring_transactions eqSim 117 365 c1db = [
    { description_pattern := generate_description_pattern c1db
      amount_range := amountRangeOf c1db
      frequency_days := 30
      frequency_type := "monthly"
      confidence := confOf [3, 45, 9, 60]
      transactions := [1, 2, 3, 4, 5]
      next_expected_date := lastDateOf c1db + 30
      merchant_pattern := generate_merchant_pattern c1db
      category_suggestion := catSuggestionOf c1db }] := by
  simp only [detect_recurring_transactions, c1_cand]
  rw [if_neg (by decide : ¬ c1db.length < 3)]
  simp only [rawPatterns, c1_groups, List.filterMap_cons, List.filterMap_nil, keepPattern]
  rw [if_pos (by decide : 3 ≤ c1db.length), c1_analyze]
  simp only
  rw [if_pos conf_c1_ge]
  simp [List.insertionSort, List.orderedInsert]

/-- C1 (amended): for a group of five similar transactions whose
consecutive day gaps are [3, 45, 9, 60], the top-level detection call
classifies the group as monthly with frequency_days 30, applies no
irregular penalty, finds confidence at least 0.6, and returns exactly
this one pattern. -/
theorem C1_monthly_pattern_returned :
    (detect_recurring_transactions eqSim 117 365 c1db).map (·.frequency_type) = ["monthly"] ∧
    (detect_recurring_transactions eqSim 117 365 c1db).map (·.frequency_days) = [30] ∧
    (detect_recurring_transactions eqSim 117 365 c1db).map (·.confidence) = [confOf [3, 45, 9, 60]] ∧
    (0.6 : ℝ) ≤ confOf [3, 45, 9, 60] ∧
    gapsOf (sortByDate c1db) = [3, 45, 9, 60] := by
  rw [c1_detect]
  refine ⟨rfl, rfl, rfl, conf_c1_ge, ?_⟩
  rw [sortByDate_of_sorted _ (by decide)]
  decide

lemma avg_c4A : avgOf [31, 29, 31, 30, 31] = 152 / 5 := by norm_num [avgOf]

lemma var_c4A : varOf [31, 29, 31, 30, 31] = 16 / 25 := by
  rw [varOf]
  simp only [avg_c4A, List.map_cons, List.map_nil, List.sum_cons, List.sum_nil,
    List.length_cons, List.length_nil]
  norm_num

lemma mb_c4A : matchBucket (152 / 5 : ℚ) = some (30, "monthly") := by
  unfold matchBucket
  rw [if_neg (by norm_num [abs_le] : ¬ |(152 / 5 : ℚ) - 1| ≤ 1)]
  rw [if_neg (by norm_num [abs_le] : ¬ |(152 / 5 : ℚ) - 7| ≤ 2)]
  rw [if_neg (by norm_num [abs_le] : ¬ |(152 / 5 : ℚ) - 14| ≤ 3)]
  rw [if_pos (by norm_num [abs_le] : |(152 / 5 : ℚ) - 30| ≤ 5)]

lemma freq_c4A : freqOf [31, 29, 31, 30, 31] = (30, "monthly") := by
  rw [freqOf, avg_c4A, mb_c4A]
  rfl

lemma conf_c4A_ge : (0.6 : ℝ) ≤ confOf [31, 29, 31, 30, 31] := by
  refine confOf_ge_bound _ (by rw [avg_c4A]; norm_num) (by rw [freq_c4A]; decide) ?_ (by decide)
  refine cvOf_le_one _ (by rw [avg_c4A]; push_cast; norm_num) ?_
  rw [avg_c4A, var_c4A]
  push_cast
  norm_num

lemma avg_c4B : avgOf [29, 31, 30, 31, 30] = 151 / 5 := by norm_num [avgOf]

lemma var_c4B : varOf [29, 31, 30, 31, 30] = 14 / 25 := by
  rw [varOf]
  simp only [avg_c4B, List.map_cons, List.map_nil, List.sum_cons, List.sum_nil,
    List.length_cons, List.length_nil]
  norm_num

lemma mb_c4B : matchBucket (151 / 5 : ℚ) = some (30, "monthly") := by
  unfold matchBucket
  rw [if_neg (by norm_num [abs_le] : ¬ |(151 / 5 : ℚ) - 1| ≤ 1)]
  rw [if_neg (by norm_num [abs_le] : ¬ |(151 / 5 : ℚ) - 7| ≤ 2)]
  rw [if_neg (by norm_num [abs_le] : ¬ |(151 / 5 : ℚ) - 14| ≤ 3)]
  rw [if_pos (by norm_num [abs_le] : |(151 / 5 : ℚ) - 30| ≤ 5)]

lemma freq_c4B : freqOf [29, 31, 30, 31, 30] = (30, "monthly") := by
  rw [freqOf, avg_c4B, mb_c4B]
  rfl

lemma conf_c4B_ge : (0.6 : ℝ) ≤ confOf [29, 31, 30, 31, 30] := by
  refine confOf_ge_bound _ (by rw [avg_c4B]; norm_num) (by rw [freq_c4B]; decide) ?_ (by decide)
  refine cvOf_le_one _ (by rw [avg_c4B]; push_cast; norm_num) ?_
  rw [avg_c4B, var_c4B]
  push_cast
  norm_num

lemma c4_similar (i j : ℕ) (d e : ℤ) :
    are_transactions_similar eqSim (mkTx i d "Netflix Assinatura" (-39.9))
      (mkTx j e "Netflix Assinatura" (-39.9)) = true := by
  refine similar_same _ _ _ (by simp [eqSim, mkTx]) (by simp [mkTx]) (Or.inl (by simp [mkTx]))

lemma c4A_groups : group_similar_transactions eqSim c4dbA = [c4dbA] := by
  simp [group_similar_transactions, c4dbA, groupLoop, absorb, c4_similar, mkTx_id]

lemma c4B_groups : group_similar_transactions eqSim c4dbB = [c4dbB] := by
  simp [group_similar_transactions, c4dbB, groupLoop, absorb, c4_similar, mkTx_id]

lemma c4A_cand : candidateTxs (toOrdinal 2024 7 15) 365 c4dbA = c4dbA := by
  rw [candidateTxs, List.filter_eq_self.mpr (by decide)]
  exact sortByDate_of_sorted _ (by decide)

lemma c4B_cand : candidateTxs (toOrdinal 2024 7 15) 365 c4dbB = c4dbB := by
  rw [candidateTxs, List.filter_eq_self.mpr (by decide)]
  exact sortByDate_of_sorted _ (by decide)

lemma c4A_analyze : analyze_transaction_group c4dbA = some
    { description_pattern := generate_description_pattern c4dbA
      amount_range := amountRangeOf c4dbA
      frequency_days := 30
      frequency_type := "monthly"
      confidence := confOf [31, 29, 31, 30, 31]
      transactions := [1, 2, 3, 4, 5, 6]
      next_expected_date := lastDateOf c4dbA + 30
      merchant_pattern := generate_merchant_pattern c4dbA
      category_suggestion := catSuggestionOf c4dbA } := by
  have hsort : sortByDate c4dbA = c4dbA := sortByDate_of_sorted _ (by decide)
  have hgaps : gapsOf c4dbA = [31, 29, 31, 30, 31] := by decide
  have h := analyze_some_eval c4dbA (by decide) (by rw [hsort, hgaps]; decide)
  rw [hsort, hgaps, freq_c4A] at h
  rw [h]
  norm_num
  decide

lemma c4B_analyze : analyze_transaction_group c4dbB = some
    { description_pattern := generate_description_pattern c4dbB
      amount_range := amountRangeOf c4dbB
      frequency_days := 30
      frequency_type := "monthly"
      confidence := confOf [29, 31, 30, 31, 30]
      transactions := [1, 2, 3, 4, 5, 6]
      next_expected_date := lastDateOf c4dbB + 30
      merchant_pattern := generate_merchant_pattern c4dbB
      category_suggestion := catSuggestionOf c4dbB } := by
  have hsort : sortByDate c4dbB = c4dbB := sortByDate_of_sorted _ (by decide)
  have hgaps : gapsOf c4dbB = [29, 31, 30, 31, 30] := by decide
  have h := analyze_some_eval c4dbB (by decide) (by rw [hsort, hgaps]; decide)
  rw [hsort, hgaps, freq_c4B] at h
  rw [h]
  norm_num
  decide

open Classical in
lemma c4A_detect : detect_recurring_transactions eqSim (toOrdinal 2024 7 15) 365 c4dbA = [
    { description_pattern := generate_description_pattern c4dbA
      amount_range := amountRangeOf c4dbA
      frequency_days := 30
      frequency_type := "monthly"
      confidence := confOf [31, 29, 31, 30, 31]
      transactions := [1, 2, 3, 4, 5, 6]
      next_expected_date := lastDateOf c4dbA + 30
      merchant_pattern := generate_merchant_pattern c4dbA
      category_suggestion := catSuggestionOf c4dbA }] := by
  simp only [detect_recurring_transactions, c4A_cand]
  rw [if_neg (by decide : ¬ c4dbA.length < 3)]
  simp only [rawPatterns, c4A_groups, List.filterMap_cons, List.filterMap_nil, keepPattern]
  rw [if_pos (by decide : 3 ≤ c4dbA.length), c4A_analyze]
  simp only
  rw [if_pos conf_c4A_ge]
  simp [List.insertionSort, List.orderedInsert]

open Classical in
lemma c4B_detect : detect_recurring_transactions eqSim (toOrdinal 2024 7 15) 365 c4dbB = [
    { description_pattern := generate_description_pattern c4dbB
      amount_range := amountRangeOf c4dbB
      frequency_days := 30
      frequency_type := "monthly"
      confidence := confOf [29, 31, 30, 31, 30]
      transactions := [1, 2, 3, 4, 5, 6]
      next_expected_date := lastDateOf c4dbB + 30
      merchant_pattern := generate_merchant_pattern c4dbB
      category_suggestion := catSuggestionOf c4dbB }] := by
  simp only [detect_recurring_transactions, c4B_cand]
  rw [if_neg (by decide : ¬ c4dbB.length < 3)]
  simp only [rawPatterns, c4B_groups, List.filterMap_cons, List.filterMap_nil, keepPattern]
  rw [if_pos (by decide : 3 ≤ c4dbB.length), c4B_analyze]
  simp only
  rw [if_pos conf_c4B_ge]
  simp [List.insertionSort, List.orderedInsert]

/-- C4 (amended): six non-recurring Netflix transactions of amount
-39.90 dated the 15th of January through June 2024 (a window whose sixth
month has 30 days) produce exactly one detected pattern, monthly, with
confidence at least 0.6 and next_expected_date July 15 2024 - the 15th of
the seventh month, because June 15 plus the flat 30-day step lands on it. -/
theorem C4_monthly_netflix_window_with_30_day_sixth_month :
    (detect_recurring_transactions eqSim (toOrdinal 2024 7 15) 365 c4dbA).length = 1 ∧
    (detect_recurring_transactions eqSim (toOrdinal 2024 7 15) 365 c4dbA).map
      (·.frequency_type) = ["monthly"] ∧
    (detect_recurring_transactions eqSim (toOrdinal 2024 7 15) 365 c4dbA).map
      (·.confidence) = [confOf [31, 29, 31, 30, 31]] ∧
    (0.6 : ℝ) ≤ confOf [31, 29, 31, 30, 31] ∧
    (detect_recurring_transactions eqSim (toOrdinal 2024 7 15) 365 c4dbA).map
      (·.next_expected_date) = [(toOrdinal 2024 7 15 : ℤ)] := by
  rw [c4A_detect]
  refine ⟨rfl, rfl, rfl, conf_c4A_ge, ?_⟩
  decide

/-- C4 counterexample: the same six Netflix transactions dated the 15th
of February through July 2024 are still detected as one monthly pattern,
but next_expected_date is July 15 plus 30 days = August 14 2024, not the
15th of the seventh month, because July has 31 days. -/
theorem C4_next_expected_date_counterexample :
    (detect_recurring_transactions eqSim (toOrdinal 2024 7 15) 365 c4dbB).map
      (·.next_expected_date) = [(toOrdinal 2024 8 14 : ℤ)] ∧
    ¬ ((toOrdinal 2024 8 14 : ℤ) = (toOrdinal 2024 8 15 : ℤ)) ∧
    (detect_recurring_transactions eqSim (toOrdinal 2024 7 15) 365 c4dbB).map
      (·.frequency_type) = ["monthly"] := by
  rw [c4B_detect]
  refine ⟨by decide, by decide, rfl⟩

lemma minfreq6 : minFreqOf 6 = 4 := by
  rw [minFreqOf, pyInt, if_pos (by norm_num : (0 : ℚ) ≤ (6 : ℕ) * 0.7)]
  norm_num

lemma c6_descs : c6txs.map (·.description) =
    ["netflix filmes", "netflix series", "netflix musica", "netflix jogos",
     "abc def", "abc def"] := by decide

lemma c6_fcw : find_common_words
    ["netflix filmes", "netflix series", "netflix musica", "netflix jogos",
     "abc def", "abc def"] = ["netflix"] := by
  have h6 : (["netflix filmes", "netflix series", "netflix musica", "netflix jogos",
      "abc def", "abc def"] : List String).length = 6 := rfl
  simp only [find_common_words, h6, minfreq6]
  decide

/-- C6 counterexample: on six descriptions in which the word netflix
occurs in exactly 4 texts, the code (threshold int(6 * 0.7) = 4 over
occurrence counts) returns the pattern netflix, while the claim rule
(threshold ceil(6 * 0.7) = 5 over texts containing the word) finds no
qualifying word and falls back to the most common description abc def. -/
theorem C6_threshold_counterexample :
    generate_description_pattern c6txs = "netflix" ∧
    specDescriptionPattern c6txs = "abc def" ∧
    ¬ ("netflix" = "abc def") := by
  refine ⟨?_, ?_, by decide⟩
  · simp only [generate_description_pattern, c6_descs, c6_fcw]
    decide
  · have hceil : max 1 ⌈((6 : ℕ) : ℚ) * 0.7⌉ = 5 := by
      rw [show ((6 : ℕ) : ℚ) * 0.7 = 21 / 5 by norm_num]
      rw [show (⌈(21 / 5 : ℚ)⌉ : ℤ) = 5 by rw [Int.ceil_eq_iff]; norm_num]
      norm_num
    simp only [specDescriptionPattern, c6_descs, List.length_cons, List.length_nil, hceil]
    decide

/-- C6 (amended): the description pattern keeps the words whose total
occurrence count across all tokenized descriptions reaches
max(1, int(0.7 * group_size)) - a truncated, occurrence-counted
threshold, not the ceil text-containment threshold of the claim - sorted
by count descending, at most 3, joined by spaces, falling back to the
most common exact description string when no word qualifies. -/
theorem C6_common_words_rule (txs : List Transaction) :
    ((find_common_words (txs.map (·.description))).all (fun w =>
      decide (minFreqOf (txs.map (·.description)).length ≤
        ((allWordsOf (txs.map (·.description))).count w : ℤ)))) = true ∧
    (find_common_words (txs.map (·.description))).length ≤ 3 ∧
    List.Sorted (fun a b => (allWordsOf (txs.map (·.description))).count b ≤
      (allWordsOf (txs.map (·.description))).count a)
      (find_common_words (txs.map (·.description))) ∧
    (find_common_words (txs.map (·.description)) = [] ↔
      (firstOccs (allWordsOf (txs.map (·.description)))).filter (fun w =>
        decide (minFreqOf (txs.map (·.description)).length ≤
          ((allWordsOf (txs.map (·.description))).count w : ℤ))) = []) ∧
    generate_description_pattern txs =
      (if find_common_words (txs.map (·.description)) = []
       then pyMaxCount (txs.map (·.description))
       else String.intercalate " " (find_common_words (txs.map (·.description)))) := by
  set texts := txs.map (·.description) with htexts
  set aw := allWordsOf texts with haw
  set common := (firstOccs aw).filter (fun w =>
    decide (minFreqOf texts.length ≤ (aw.count w : ℤ))) with hcommon
  have hfcw : find_common_words texts =
      (List.insertionSort (fun a b => aw.count b ≤ aw.count a) common).take 3 := rfl
  haveI : IsTotal String (fun a b => aw.count b ≤ aw.count a) :=
    ⟨fun a b => le_total _ _⟩
  haveI : IsTrans String (fun a b => aw.count b ≤ aw.count a) :=
    ⟨fun _ _ _ h1 h2 => le_trans h2 h1⟩
  refine ⟨?_, ?_, ?_, ?_, ?_⟩
  · rw [List.all_eq_true]
    intro w hw
    have h1 : w ∈ List.insertionSort (fun a b => aw.count b ≤ aw.count a) common :=
      List.take_subset 3 _ hw
    have h2 : w ∈ common := (List.perm_insertionSort _ _).subset h1
    rw [hcommon] at h2
    exact (List.mem_filter.mp h2).2
  · rw [hfcw]
    exact List.length_take_le 3 _
  · rw [hfcw]
    exact (List.sorted_insertionSort _ _).sublist (List.take_sublist _ _)
  · rw [hfcw]
    constructor
    · intro h
      rcases (List.take_eq_nil_iff).mp h with h3 | hnil
      · exact absurd h3 (by norm_num)
      · have := (List.perm_insertionSort
          (fun a b => aw.count b ≤ aw.count a) common).length_eq
        rw [hnil] at this
        exact List.length_eq_zero.mp this.symm
    · intro h
      rw [h]
      simp [List.insertionSort]
  · rcases hfc : find_common_words texts with _ | ⟨w, ws⟩
    · simp only [generate_description_pattern, ← htexts, hfc, if_pos]
    · simp only [generate_description_pattern, ← htexts, hfc]
      rw [if_neg (by simp)]

lemma analyze_inv (g : List Transaction) (p : RecurringPattern)
    (h : analyze_transaction_group g = some p) :
    ¬ g.length < 3 ∧ gapsOf (sortByDate g) ≠ [] ∧ p =
      { description_pattern := generate_description_pattern (sortByDate g)
        amount_range := amountRangeOf (sortByDate g)
        frequency_days := (freqOf (gapsOf (sortByDate g))).1
        frequency_type := (freqOf (gapsOf (sortByDate g))).2
        confidence := confOf (gapsOf (sortByDate g))
        transactions := (sortByDate g).map (·.id)
        next_expected_date := lastDateOf (sortByDate g) + (freqOf (gapsOf (sortByDate g))).1
        merchant_pattern := generate_merchant_pattern (sortByDate g)
        category_suggestion := catSuggestionOf (sortByDate g) } := by
  by_cases h3 : g.length < 3
  · rw [analyze_transaction_group, if_pos h3] at h
    exact absurd h (by simp)
  · by_cases hiv : gapsOf (sortByDate g) = []
    · simp only [analyze_transaction_group, if_neg h3, if_pos hiv] at h
      exact absurd h (by simp)
    · rw [analyze_some_eval g h3 hiv] at h
      exact ⟨h3, hiv, (Option.some_inj.mp h).symm⟩

lemma sortByDate_length (l : List Transaction) : (sortByDate l).length = l.length :=
  (List.perm_insertionSort _ l).length_eq

/-- C7 (amended): for every analyzed group the category_suggestion is
the first most frequent label among the per-transaction labels, where a
transaction with an explicit category contributes its llm category when
that is a nonempty string and its explicit category name otherwise, and a
transaction without an explicit category contributes the literal Outros
even when it has an llm category (the operator-precedence behaviour of the
source line); the suggestion is never None for an analyzed group. -/
theorem C7_category_suggestion_rule (g : List Transaction) (p : RecurringPattern)
    (h : analyze_transaction_group g = some p) :
    p.category_suggestion = some (pyMaxCount ((sortByDate g).map categoryLabel)) ∧
    pyMaxCount ((sortByDate g).map categoryLabel) ∈ (sortByDate g).map categoryLabel ∧
    ((sortByDate g).map categoryLabel).all (fun c =>
      decide (((sortByDate g).map categoryLabel).count c ≤
        ((sortByDate g).map categoryLabel).count
          (pyMaxCount ((sortByDate g).map categoryLabel)))) = true := by
  obtain ⟨h3, -, rfl⟩ := analyze_inv g p h
  have hne : sortByDate g ≠ [] := by
    intro hcon
    have := sortByDate_length g
    rw [hcon] at this
    simp at this
    omega
  have hlabels : (sortByDate g).map categoryLabel ≠ [] := by
    intro hcon
    exact hne (List.map_eq_nil_iff.mp hcon)
  refine ⟨?_, pyMaxCount_mem _ hlabels, ?_⟩
  · obtain ⟨a, l, hs⟩ := List.exists_cons_of_ne_nil hne
    simp only [catSuggestionOf, hs, List.map_cons]
  · rw [List.all_eq_true]
    intro c hc
    simpa using pyMaxCount_count_le _ c hc

/-- Pattern value analyze produces on the C7 group. -/
noncomputable def c7pat : RecurringPattern :=
  { description_pattern := generate_description_pattern c7txs
    amount_range := amountRangeOf c7txs
    frequency_days := (freqOf (gapsOf c7txs)).1
    frequency_type := (freqOf (gapsOf c7txs)).2
    confidence := confOf (gapsOf c7txs)
    transactions := c7txs.map (·.id)
    next_expected_date := lastDateOf c7txs + (freqOf (gapsOf c7txs)).1
    merchant_pattern := generate_merchant_pattern c7txs
    category_suggestion := catSuggestionOf c7txs }

lemma c7_analyze : analyze_transaction_group c7txs = some c7pat := by
  have hsort : sortByDate c7txs = c7txs := sortByDate_of_sorted _ (by decide)
  have h := analyze_some_eval c7txs (by decide) (by rw [hsort]; decide)
  rw [hsort] at h
  exact h

/-- C7 counterexample: a group whose transactions all carry llm
category Streaming but no explicit category.  The claim says the
suggestion prefers the llm category (Streaming); the code suggests
Outros, and its suggestion is not None even though the claim also says it
should be None when no transaction has any category relationship. -/
theorem C7_category_outros_counterexample :
    (analyze_transaction_group c7txs).map (·.category_suggestion) = some (some "Outros") ∧
    c7txs.map (·.llm_category) = [some "Streaming", some "Streaming", some "Streaming"] ∧
    c7txs.map (·.category) = [none, none, none] ∧
    specCategorySuggestion c7txs = some "Streaming" ∧
    ¬ (some "Outros" = some ("Streaming" : String)) := by
  rw [c7_analyze]
  refine ⟨?_, by decide, by decide, by decide, by decide⟩
  show some c7pat.category_suggestion = some (some "Outros")
  have : c7pat.category_suggestion = catSuggestionOf c7txs := rfl
  rw [this]
  decide

/-- C7 witness: the amended category rule instantiated at the concrete
three-transaction group c7txs. -/
theorem C7_category_suggestion_rule_witness :
    c7pat.category_suggestion = some (pyMaxCount ((sortByDate c7txs).map categoryLabel)) ∧
    pyMaxCount ((sortByDate c7txs).map categoryLabel) ∈ (sortByDate c7txs).map categoryLabel ∧
    ((sortByDate c7txs).map categoryLabel).all (fun c =>
      decide (((sortByDate c7txs).map categoryLabel).count c ≤
        ((sortByDate c7txs).map categoryLabel).count
          (pyMaxCount ((sortByDate c7txs).map categoryLabel)))) = true :=
  C7_category_suggestion_rule c7txs c7pat c7_analyze

/-- C10: the detection entry point (and likewise the forecast entry
point) is read-only with respect to the transaction store: in the
state-passing rendering the store component is returned unchanged; only
the marking operation (markSession) writes transaction fields. -/
theorem C10_detection_is_read_only (simFn : String → String → ℚ)
    (today days_back : ℤ) (db : List Transaction) :
    (detectSession simFn today days_back db).1 = db ∧
    (predictSession db today days_back).1 = db :=
  ⟨rfl, rfl⟩

lemma absorb_ids (simFn : String → String → ℚ) (seed : Transaction) :
    ∀ (l : List Transaction) (used : List ℕ),
    (((absorb simFn seed l used).1.map (·.id)).Nodup) ∧
    (∀ i ∈ (absorb simFn seed l used).1.map (·.id), i ∉ used) ∧
    (∀ i : ℕ, i ∈ (absorb simFn seed l used).2 ↔
      i ∈ (absorb simFn seed l used).1.map (·.id) ∨ i ∈ used) := by
  intro l
  induction l with
  | nil => intro used; simp [absorb]
  | cons t rest ih =>
    intro used
    by_cases h1 : t.id ∈ used
    · simpa only [absorb, if_pos h1] using ih used
    · by_cases h2 : are_transactions_similar simFn seed t = true
      · obtain ⟨ihN, ihU, ihM⟩ := ih (t.id :: used)
        simp only [absorb, if_neg h1, if_pos h2, List.map_cons]
        refine ⟨?_, ?_, ?_⟩
        · rw [List.nodup_cons]
          exact ⟨fun hmem => (ihU _ hmem) (List.mem_cons_self _ _), ihN⟩
        · intro i hi
          rcases List.mem_cons.mp hi with rfl | hi
          · exact h1
          · exact fun hu => (ihU i hi) (List.mem_cons_of_mem _ hu)
        · intro i
          rw [ihM i]
          simp only [List.mem_cons]
          tauto
      · simpa only [absorb, if_neg h1, if_neg h2] using ih used

lemma groupLoop_spec (simFn : String → String → ℚ) :
    ∀ (l : List Transaction) (used : List ℕ),
    (∀ g ∈ groupLoop simFn l used, 3 ≤ g.length ∧ (g.map (·.id)).Nodup ∧
      ∀ i ∈ g.map (·.id), i ∉ used) ∧
    List.Pairwise (fun g g' => ∀ i ∈ g.map (·.id), i ∉ g'.map (·.id))
      (groupLoop simFn l used) := by
  intro l
  induction l with
  | nil => intro used; simp [groupLoop]
  | cons t rest ih =>
    intro used
    by_cases h1 : t.id ∈ used
    · simpa only [groupLoop, if_pos h1] using ih used
    · obtain ⟨habsN, habsU, habsM⟩ := absorb_ids simFn t rest (t.id :: used)
      have hsub : ∀ i : ℕ, i = t.id ∨ i ∈ (absorb simFn t rest (t.id :: used)).1.map (·.id) →
          i ∈ (absorb simFn t rest (t.id :: used)).2 := by
        intro i hi
        rcases hi with rfl | hi
        · exact (habsM _).mpr (Or.inr (List.mem_cons_self _ _))
        · exact (habsM i).mpr (Or.inl hi)
      have husedsub : ∀ i : ℕ, i ∈ used → i ∈ (absorb simFn t rest (t.id :: used)).2 :=
        fun i hi => (habsM i).mpr (Or.inr (List.mem_cons_of_mem _ hi))
      obtain ⟨ihA, ihP⟩ := ih (absorb simFn t rest (t.id :: used)).2
      by_cases h2 : 3 ≤ (t :: (absorb simFn t rest (t.id :: used)).1).length
      · simp only [groupLoop, if_neg h1, if_pos h2]
        constructor
        · intro g hg
          rcases List.mem_cons.mp hg with rfl | hg
          · refine ⟨h2, ?_, ?_⟩
            · rw [List.map_cons, List.nodup_cons]
              exact ⟨fun hmem => (habsU _ hmem) (List.mem_cons_self _ _), habsN⟩
            · intro i hi
              rw [List.map_cons] at hi
              rcases List.mem_cons.mp hi with rfl | hi
              · exact h1
              · exact fun hu => (habsU i hi) (List.mem_cons_of_mem _ hu)
          · obtain ⟨hl, hn, hu⟩ := ihA g hg
            exact ⟨hl, hn, fun i hi hused => hu i hi (husedsub i hused)⟩
        · refine List.Pairwise.cons ?_ ihP
          intro g' hg' i hi hig'
          have hir : i ∈ (absorb simFn t rest (t.id :: used)).2 := by
            refine hsub i ?_
            rw [List.map_cons] at hi
            rcases List.mem_cons.mp hi with rfl | hi
            · exact Or.inl rfl
            · exact Or.inr hi
          exact (ihA g' hg').2.2 i hig' hir
      · simp only [groupLoop, if_neg h1, if_neg h2]
        refine ⟨?_, ihP⟩
        intro g hg
        obtain ⟨hl, hn, hu⟩ := ihA g hg
        exact ⟨hl, hn, fun i hi hused => hu i hi (husedsub i hused)⟩

lemma keepPattern_some (g : List Transaction) (p : RecurringPattern)
    (h : keepPattern g = some p) : analyze_transaction_group g = some p := by
  by_cases h3 : 3 ≤ g.length
  · rw [keepPattern, if_pos h3] at h
    rcases ha : analyze_transaction_group g with _ | q
    · rw [ha] at h
      exact absurd h (by simp)
    · rw [ha] at h
      dsimp only at h
      split_ifs at h
      exact h
  · rw [keepPattern, if_neg h3] at h
    exact absurd h (by simp)

lemma pattern_from_group (g : List Transaction) (p : RecurringPattern)
    (h : analyze_transaction_group g = some p) :
    p.transactions.length = g.length ∧
    (p.transactions.Nodup ↔ (g.map (·.id)).Nodup) ∧
    (∀ i : ℕ, i ∈ p.transactions ↔ i ∈ g.map (·.id)) := by
  obtain ⟨-, -, rfl⟩ := analyze_inv g p h
  have hperm : List.Perm ((sortByDate g).map (·.id)) (g.map (·.id)) :=
    (List.perm_insertionSort _ g).map _
  refine ⟨?_, hperm.nodup_iff, fun i => hperm.mem_iff⟩
  have := hperm.length_eq
  simpa using this

lemma rawPatterns_props (simFn : String → String → ℚ) (txs : List Transaction) :
    (∀ p ∈ rawPatterns simFn txs, 3 ≤ p.transactions.length ∧ p.transactions.Nodup) ∧
    List.Pairwise (fun p q => ∀ i ∈ p.transactions, i ∉ q.transactions)
      (rawPatterns simFn txs) := by
  have hgs := groupLoop_spec simFn txs []
  constructor
  · intro p hp
    rw [rawPatterns, List.mem_filterMap] at hp
    obtain ⟨g, hg, hkp⟩ := hp
    have ha := keepPattern_some g p hkp
    obtain ⟨hlen, hnod, -⟩ := pattern_from_group g p ha
    obtain ⟨h3, hnodg, -⟩ := hgs.1 g hg
    exact ⟨by omega, hnod.mpr hnodg⟩
  · rw [rawPatterns]
    refine List.pairwise_filterMap.mpr (hgs.2.imp ?_)
    intro g g' hdis b hb b' hb'
    rw [Option.mem_def] at hb hb'
    have hab := keepPattern_some g b hb
    have hab' := keepPattern_some g' b' hb'
    obtain ⟨-, -, hmem⟩ := pattern_from_group g b hab
    obtain ⟨-, -, hmem'⟩ := pattern_from_group g' b' hab'
    intro i hi hi'
    exact hdis i ((hmem i).mp hi) ((hmem' i).mp hi')

/-- C9: for every input store, every pattern returned by the top-level
detection call references at least 3 pairwise-distinct transaction ids,
and no transaction id appears in more than one returned pattern. -/
theorem C9_patterns_min_size_and_disjoint (simFn : String → String → ℚ)
    (today days_back : ℤ) (db : List Transaction) :
    ((detect_recurring_transactions simFn today days_back db).all (fun p =>
      decide (3 ≤ p.transactions.length) && decide p.transactions.Nodup)) = true ∧
    List.Pairwise (fun p q => ∀ i ∈ p.transactions, i ∉ q.transactions)
      (detect_recurring_transactions simFn today days_back db) := by
  obtain ⟨hall, hpair⟩ := rawPatterns_props simFn (candidateTxs today days_back db)
  rw [detect_recurring_transactions]
  by_cases hlen : (candidateTxs today days_back db).length < 3
  · rw [if_pos hlen]
    exact ⟨rfl, List.Pairwise.nil⟩
  · rw [if_neg hlen]
    have hperm := List.perm_insertionSort
      (fun p q : RecurringPattern => q.confidence ≤ p.confidence)
      (rawPatterns simFn (candidateTxs today days_back db))
    constructor
    · rw [List.all_eq_true]
      intro p hp
      obtain ⟨h3, hnod⟩ := hall p (hperm.subset hp)
      simp [h3, hnod]
    · refine (hperm.pairwise_iff ?_).mpr hpair
      intro x y hxy i hi hix
      exact hxy i hix hi
